import Mathlib

/-!
# apple-ir-control: a shallow embedding of `apple-ir-control.cc`

The program talks to three operating-system collaborators: the HID manager
(capability probe), the CFPreferences store and the IOKit registry.  Their
observable behaviour is captured by a `Host` record; every function of the
source is a Lean function over that record which returns, besides its C return
value, the list of events (OS calls and output lines) it performs, in order.
-/

namespace AppleIR

/-! ## Data model -/

/-- A CoreFoundation object as far as the program can tell objects apart:
either a `CFBoolean`, or an object whose type id is not the boolean one. -/
inductive CFValue where
  | boolean (value : Bool)
  | other (typeID : Nat)
  deriving DecidableEq, Repr

/-- A `CFTypeRef`: `none` is the null reference. -/
abbrev CFTypeRef := Option CFValue

/-- `KERN_SUCCESS` of `kern_return_t`. -/
def KERN_SUCCESS : Nat := 0

/-- The code the registry answers for a handle that names no entry
(`MACH_SEND_INVALID_DEST`). -/
def KERN_INVALID_HANDLE : Nat := 0x10000003

def EXIT_SUCCESS : Nat := 0

def EXIT_FAILURE : Nat := 1

/-- One human-interface device: the value of its `HIDRemoteControl` property
(`none` when the device has no such property). -/
structure HIDDevice where
  HIDRemoteControl : CFTypeRef
  deriving DecidableEq, Repr

/-- One `AppleIRController` registry entry.  `nameKr` is what
`IORegistryEntryGetName` returns for it, `setKr` what
`IORegistryEntrySetCFProperty` returns for it, `DeviceEnabled` the current
value of its `DeviceEnabled` property (`none`: no such property). -/
structure Service where
  nameKr : Nat
  name : String
  DeviceEnabled : CFTypeRef
  setKr : Nat
  deriving DecidableEq, Repr

/-- The state of the machine the program runs on.
* `VERBOSE`: the build constant of lines 19-23;
* `euid`: the effective user id;
* `hidDevices`: the result of `IOHIDManagerCopyDevices` (`none`: null);
* `pref`: the value stored under `DeviceEnabled` in the preference domain;
* `syncOk`: the result of `CFPreferencesSynchronize`;
* `matchKr`: the result code of `IOServiceGetMatchingServices`;
* `services`: the registry entries of class `AppleIRController`; a service
  handle is a position in this list. -/
structure Host where
  VERBOSE : Bool
  euid : Nat
  hidDevices : Option (List HIDDevice)
  pref : CFTypeRef
  syncOk : Bool
  matchKr : Nat
  services : List Service
  deriving DecidableEq, Repr

/-- An argument of a format string. -/
inductive Arg where
  | str (s : String)
  | hex (n : Nat)
  | int (n : Nat)
  deriving DecidableEq, Repr

/-- What a run does, in order: calls into the OS, and lines written.
`printf` and `LOG` go to standard output, `ERROR` and `fprintf` to standard
error; `LOG` and `ERROR` carry the source line of the statement. -/
inductive Event where
  | geteuid
  | IOHIDManagerCopyDevices
  | IOHIDDeviceGetProperty (device : Nat)
  | CFShow (device : Nat)
  | CFPreferencesCopyValue
  | CFPreferencesSetValue (value : Bool)
  | CFPreferencesSynchronize
  | IOServiceGetMatchingServices
  | IORegistryEntryGetName (service : Nat)
  | IORegistryEntryCreateCFProperty (service : Nat)
  | IORegistryEntrySetCFProperty (service : Nat) (value : Bool)
  | printf (fmt : String) (args : List Arg)
  | fprintf (fmt : String) (args : List Arg)
  | LOG (line : Nat) (msg : String) (args : List Arg)
  | ERROR (line : Nat) (msg : String) (args : List Arg)
  deriving DecidableEq, Repr

/-- How a function call ends: it returns a code, or the process is terminated
by `abort()` (line 103), or it dereferences a null reference
(`CFGetTypeID` applied to null, line 101). -/
inductive Outcome where
  | returned (code : Nat)
  | aborted
  | crashed
  deriving DecidableEq, Repr

/-- The result of a run: how it ended, the host it leaves, what it did. -/
structure Run where
  outcome : Outcome
  host : Host
  trace : List Event
  deriving DecidableEq, Repr

/-! ## The OS collaborators -/

/-- The macro `LOG` (lines 28-32): prints only in a verbose build. -/
def LOG (h : Host) (line : Nat) (msg : String) (args : List Arg) : List Event :=
  if h.VERBOSE then [Event.LOG line msg args] else []

/-- `IORegistryEntryGetName`: result code and name of the entry. -/
def IORegistryEntryGetName (h : Host) (service : Nat) : Nat × String :=
  match h.services[service]? with
  | some s => (s.nameKr, s.name)
  | none => (KERN_INVALID_HANDLE, "")

/-- `IORegistryEntryCreateCFProperty(service, kPrefEnabled, ...)`. -/
def IORegistryEntryCreateCFProperty (h : Host) (service : Nat) : CFTypeRef :=
  match h.services[service]? with
  | some s => s.DeviceEnabled
  | none => none

/-- `IORegistryEntrySetCFProperty(service, kPrefEnabled, value)`: an entry that
accepts the write holds the written boolean afterwards, an entry that refuses
it is left as it was. -/
def IORegistryEntrySetCFProperty (h : Host) (service : Nat) (value : Bool) : Nat × Host :=
  match h.services[service]? with
  | some s =>
    if s.setKr ≠ KERN_SUCCESS then (s.setKr, h)
    else (KERN_SUCCESS,
      { h with services := h.services.set service { s with DeviceEnabled := some (CFValue.boolean value) } })
  | none => (KERN_INVALID_HANDLE, h)

/-- `CFPreferencesSetValue(kPrefEnabled, value, kPrefDomain, ...)`. -/
def CFPreferencesSetValue (h : Host) (value : Bool) : Host :=
  { h with pref := some (CFValue.boolean value) }

/-! ## The program -/

/-- The loop of `IsIRAvailable` (lines 85-96) over the devices from position `i`. -/
def IsIRAvailable.loop (h : Host) : List HIDDevice → Nat → Bool × List Event
  | [], _ => (false, [])
  | device :: rest, i =>
    if device.HIDRemoteControl.isSome then
      (true, [Event.IOHIDDeviceGetProperty i] ++
        (if h.VERBOSE then LOG h 91 "Located HIDRemoteControl:" [] ++ [Event.CFShow i] else []))
    else
      ((IsIRAvailable.loop h rest (i + 1)).1,
        Event.IOHIDDeviceGetProperty i :: (IsIRAvailable.loop h rest (i + 1)).2)

/-- `IsIRAvailable` (lines 74-98). -/
def IsIRAvailable (h : Host) : Bool × List Event :=
  match h.hidDevices with
  | none =>
    (false, [Event.IOHIDManagerCopyDevices, Event.ERROR 79 "Failed to IOHIDManagerCopyDevices" []])
  | some devices =>
    ((IsIRAvailable.loop h devices 0).1,
      Event.IOHIDManagerCopyDevices :: (IsIRAvailable.loop h devices 0).2)

/-- `GetBooleanDescription` (lines 100-106): the description, or the way the
process dies. -/
def GetBooleanDescription (boolean : CFTypeRef) : Except Outcome String × List Event :=
  match boolean with
  | none => (Except.error Outcome.crashed, [])
  | some (CFValue.other _) =>
    (Except.error Outcome.aborted, [Event.ERROR 102 "Unexpected non-boolean CFTypeRef" []])
  | some (CFValue.boolean b) => (Except.ok (if b then "on" else "off"), [])

/-- `SynchronizePrefs` (lines 108-115). -/
def SynchronizePrefs (h : Host) : Bool × List Event :=
  if !h.syncOk then
    (false, [Event.CFPreferencesSynchronize, Event.ERROR 112 "Failed to CFPreferencesSynchronize" []])
  else (true, [Event.CFPreferencesSynchronize])

/-- `CreateIOServiceIterator` (lines 117-126): success flag, the handles the
iterator will yield, events. -/
def CreateIOServiceIterator (h : Host) : Bool × List Nat × List Event :=
  if h.matchKr ≠ KERN_SUCCESS then
    (false, [], [Event.IOServiceGetMatchingServices,
      Event.ERROR 122 "Failed to IOServiceGetMatchingServices: 0x%x" [Arg.hex h.matchKr]])
  else (true, List.range h.services.length, [Event.IOServiceGetMatchingServices])

/-- The `while` loop of `HandleRead` (lines 139-155) over the handles still to
come, with the current `did_find`: its final `did_find` or the way the process
died, and the events. -/
def HandleRead.loop (h : Host) : List Nat → Bool → Except Outcome Bool × List Event
  | [], did_find => (Except.ok did_find, [])
  | service :: rest, _ =>
    if (IORegistryEntryGetName h service).1 ≠ KERN_SUCCESS then
      ((HandleRead.loop h rest true).1,
        [Event.IORegistryEntryGetName service,
          Event.ERROR 145 "Failed to IORegistryEntryGetName: 0x%x"
            [Arg.hex (IORegistryEntryGetName h service).1]] ++
        (HandleRead.loop h rest true).2)
    else
      match GetBooleanDescription (IORegistryEntryCreateCFProperty h service) with
      | (Except.error o, ev) =>
        (Except.error o,
          [Event.IORegistryEntryGetName service] ++
          LOG h 149 "Found AppleIRController: %s" [Arg.str (IORegistryEntryGetName h service).2] ++
          [Event.IORegistryEntryCreateCFProperty service] ++ ev)
      | (Except.ok d, ev) =>
        ((HandleRead.loop h rest true).1,
          [Event.IORegistryEntryGetName service] ++
          LOG h 149 "Found AppleIRController: %s" [Arg.str (IORegistryEntryGetName h service).2] ++
          [Event.IORegistryEntryCreateCFProperty service] ++ ev ++
          [Event.printf "Kernel property value %s: %s\n"
            [Arg.str (IORegistryEntryGetName h service).2, Arg.str d]] ++
          (HandleRead.loop h rest true).2)

/-- `HandleRead` (lines 128-163).  It changes nothing on the host. -/
def HandleRead (h : Host) : Outcome × List Event :=
  match GetBooleanDescription h.pref with
  | (Except.error o, ev) => (o, [Event.CFPreferencesCopyValue] ++ ev)
  | (Except.ok d, ev) =>
    if !(CreateIOServiceIterator h).1 then
      (Outcome.returned EXIT_FAILURE,
        [Event.CFPreferencesCopyValue] ++ ev ++
        [Event.printf "Userspace property value: %s\n" [Arg.str d]] ++
        (CreateIOServiceIterator h).2.2)
    else
      match HandleRead.loop h (CreateIOServiceIterator h).2.1 false with
      | (Except.error o, ev3) =>
        (o, [Event.CFPreferencesCopyValue] ++ ev ++
          [Event.printf "Userspace property value: %s\n" [Arg.str d]] ++
          (CreateIOServiceIterator h).2.2 ++ ev3)
      | (Except.ok did_find, ev3) =>
        if !did_find then
          (Outcome.returned EXIT_FAILURE,
            [Event.CFPreferencesCopyValue] ++ ev ++
            [Event.printf "Userspace property value: %s\n" [Arg.str d]] ++
            (CreateIOServiceIterator h).2.2 ++ ev3 ++
            [Event.ERROR 158 "Failed to match any AppleIRController" []])
        else
          (Outcome.returned EXIT_SUCCESS,
            [Event.CFPreferencesCopyValue] ++ ev ++
            [Event.printf "Userspace property value: %s\n" [Arg.str d]] ++
            (CreateIOServiceIterator h).2.2 ++ ev3)

/-- The `while` loop of `HandleWrite` (lines 183-198) over the handles still to
come: the host it leaves and the events. -/
def HandleWrite.loop (enable : Bool) : Host → List Nat → Host × List Event
  | h, [] => (h, [])
  | h, service :: rest =>
    if (IORegistryEntryGetName h service).1 ≠ KERN_SUCCESS then
      ((HandleWrite.loop enable h rest).1,
        [Event.IORegistryEntryGetName service,
          Event.ERROR 187 "Failed to IORegistryEntryGetName: 0x%x"
            [Arg.hex (IORegistryEntryGetName h service).1]] ++
        (HandleWrite.loop enable h rest).2)
    else if (IORegistryEntrySetCFProperty h service enable).1 ≠ KERN_SUCCESS then
      ((HandleWrite.loop enable (IORegistryEntrySetCFProperty h service enable).2 rest).1,
        [Event.IORegistryEntryGetName service] ++
        LOG h 191 "Setting property for %s to %d"
          [Arg.str (IORegistryEntryGetName h service).2, Arg.int (if enable then 1 else 0)] ++
        [Event.IORegistryEntrySetCFProperty service enable,
          Event.ERROR 195 "Failed to IORegistryEntrySetCFProperty: 0x%x"
            [Arg.hex (IORegistryEntrySetCFProperty h service enable).1]] ++
        (HandleWrite.loop enable (IORegistryEntrySetCFProperty h service enable).2 rest).2)
    else
      ((HandleWrite.loop enable (IORegistryEntrySetCFProperty h service enable).2 rest).1,
        [Event.IORegistryEntryGetName service] ++
        LOG h 191 "Setting property for %s to %d"
          [Arg.str (IORegistryEntryGetName h service).2, Arg.int (if enable then 1 else 0)] ++
        [Event.IORegistryEntrySetCFProperty service enable] ++
        (HandleWrite.loop enable (IORegistryEntrySetCFProperty h service enable).2 rest).2)

/-- `HandleWrite` (lines 165-201). -/
def HandleWrite (enable : Bool) (h : Host) : Run :=
  if h.euid ≠ 0 then
    ⟨Outcome.returned EXIT_FAILURE, h,
      [Event.geteuid, Event.ERROR 167 "This operation must be performed as root" []]⟩
  else if !(SynchronizePrefs (CFPreferencesSetValue h enable)).1 then
    ⟨Outcome.returned EXIT_FAILURE, CFPreferencesSetValue h enable,
      [Event.geteuid, Event.CFPreferencesSetValue enable] ++
      (SynchronizePrefs (CFPreferencesSetValue h enable)).2⟩
  else if !(CreateIOServiceIterator (CFPreferencesSetValue h enable)).1 then
    ⟨Outcome.returned EXIT_FAILURE, CFPreferencesSetValue h enable,
      [Event.geteuid, Event.CFPreferencesSetValue enable] ++
      (SynchronizePrefs (CFPreferencesSetValue h enable)).2 ++
      (CreateIOServiceIterator (CFPreferencesSetValue h enable)).2.2⟩
  else
    ⟨(HandleRead (HandleWrite.loop enable (CFPreferencesSetValue h enable)
        (CreateIOServiceIterator (CFPreferencesSetValue h enable)).2.1).1).1,
      (HandleWrite.loop enable (CFPreferencesSetValue h enable)
        (CreateIOServiceIterator (CFPreferencesSetValue h enable)).2.1).1,
      [Event.geteuid, Event.CFPreferencesSetValue enable] ++
      (SynchronizePrefs (CFPreferencesSetValue h enable)).2 ++
      (CreateIOServiceIterator (CFPreferencesSetValue h enable)).2.2 ++
      (HandleWrite.loop enable (CFPreferencesSetValue h enable)
        (CreateIOServiceIterator (CFPreferencesSetValue h enable)).2.1).2 ++
      (HandleRead (HandleWrite.loop enable (CFPreferencesSetValue h enable)
        (CreateIOServiceIterator (CFPreferencesSetValue h enable)).2.1).1).2⟩

/-- The usage line of line 219; a null `argv[0]` prints as `(null)`. -/
def usage (argv : List String) : List Event :=
  [Event.fprintf "Usage: %s [on|off]\n" [Arg.str (argv.headD "(null)")]]

/-- The function `main` (lines 203-220); `argc` is the length of `argv`. -/
def main (argv : List String) (h : Host) : Run :=
  if !(IsIRAvailable h).1 then
    ⟨Outcome.returned EXIT_FAILURE, h,
      (IsIRAvailable h).2 ++ [Event.ERROR 205 "No HIDRemoteControl available" []]⟩
  else if argv.length = 1 then
    ⟨(HandleRead h).1, h, (IsIRAvailable h).2 ++ (HandleRead h).2⟩
  else if argv.length = 2 ∧ argv[1]? = some "on" then
    ⟨(HandleWrite true h).outcome, (HandleWrite true h).host,
      (IsIRAvailable h).2 ++ (HandleWrite true h).trace⟩
  else if argv.length = 2 ∧ argv[1]? = some "off" then
    ⟨(HandleWrite false h).outcome, (HandleWrite false h).host,
      (IsIRAvailable h).2 ++ (HandleWrite false h).trace⟩
  else
    ⟨Outcome.returned EXIT_FAILURE, h, (IsIRAvailable h).2 ++ usage argv⟩

/-! ## The two loops as recursions over the registry entries

The loops of the program run over handles and look every handle up in the
registry.  For the proofs the same loops are written as recursions over the
entries themselves, `i` being the handle of the first entry; the lemmas
`HandleRead_loop_eq_loopFrom` and `HandleWrite_loop_eq_loopFrom` show that they
compute what the loops of the program compute. -/

/-- The read loop over the entries `s :: rest`, the first of handle `i`. -/
def HandleRead.loopFrom (verbose : Bool) :
    Nat → List Service → Bool → Except Outcome Bool × List Event
  | _, [], did_find => (Except.ok did_find, [])
  | i, s :: rest, _ =>
    if s.nameKr ≠ KERN_SUCCESS then
      ((HandleRead.loopFrom verbose (i + 1) rest true).1,
        [Event.IORegistryEntryGetName i,
          Event.ERROR 145 "Failed to IORegistryEntryGetName: 0x%x" [Arg.hex s.nameKr]] ++
        (HandleRead.loopFrom verbose (i + 1) rest true).2)
    else
      match GetBooleanDescription s.DeviceEnabled with
      | (Except.error o, ev) =>
        (Except.error o,
          [Event.IORegistryEntryGetName i] ++
          (if verbose then [Event.LOG 149 "Found AppleIRController: %s" [Arg.str s.name]] else []) ++
          [Event.IORegistryEntryCreateCFProperty i] ++ ev)
      | (Except.ok d, ev) =>
        ((HandleRead.loopFrom verbose (i + 1) rest true).1,
          [Event.IORegistryEntryGetName i] ++
          (if verbose then [Event.LOG 149 "Found AppleIRController: %s" [Arg.str s.name]] else []) ++
          [Event.IORegistryEntryCreateCFProperty i] ++ ev ++
          [Event.printf "Kernel property value %s: %s\n" [Arg.str s.name, Arg.str d]] ++
          (HandleRead.loopFrom verbose (i + 1) rest true).2)

/-- The write loop over the entries `s :: rest`, the first of handle `i`: the
entries it leaves, and the events. -/
def HandleWrite.loopFrom (enable verbose : Bool) :
    Nat → List Service → List Service × List Event
  | _, [] => ([], [])
  | i, s :: rest =>
    if s.nameKr ≠ KERN_SUCCESS then
      (s :: (HandleWrite.loopFrom enable verbose (i + 1) rest).1,
        [Event.IORegistryEntryGetName i,
          Event.ERROR 187 "Failed to IORegistryEntryGetName: 0x%x" [Arg.hex s.nameKr]] ++
        (HandleWrite.loopFrom enable verbose (i + 1) rest).2)
    else if s.setKr ≠ KERN_SUCCESS then
      (s :: (HandleWrite.loopFrom enable verbose (i + 1) rest).1,
        [Event.IORegistryEntryGetName i] ++
        (if verbose then [Event.LOG 191 "Setting property for %s to %d"
          [Arg.str s.name, Arg.int (if enable then 1 else 0)]] else []) ++
        [Event.IORegistryEntrySetCFProperty i enable,
          Event.ERROR 195 "Failed to IORegistryEntrySetCFProperty: 0x%x" [Arg.hex s.setKr]] ++
        (HandleWrite.loopFrom enable verbose (i + 1) rest).2)
    else
      ({ s with DeviceEnabled := some (CFValue.boolean enable) } ::
          (HandleWrite.loopFrom enable verbose (i + 1) rest).1,
        [Event.IORegistryEntryGetName i] ++
        (if verbose then [Event.LOG 191 "Setting property for %s to %d"
          [Arg.str s.name, Arg.int (if enable then 1 else 0)]] else []) ++
        [Event.IORegistryEntrySetCFProperty i enable] ++
        (HandleWrite.loopFrom enable verbose (i + 1) rest).2)

/-- What the write loop does to one entry: an entry whose name can be read and
which accepts the write holds `enable`, any other entry is left as it was. -/
def Service.written (enable : Bool) (s : Service) : Service :=
  if s.nameKr = KERN_SUCCESS ∧ s.setKr = KERN_SUCCESS then
    { s with DeviceEnabled := some (CFValue.boolean enable) }
  else s

/-! ## Observations on traces -/

/-- An event that reads the effective uid or calls into the preference store or
the registry: every path through `HandleRead` and `HandleWrite` starts with one. -/
def Event.isHandlerCall : Event → Bool
  | Event.geteuid => true
  | Event.CFPreferencesCopyValue => true
  | Event.CFPreferencesSetValue _ => true
  | Event.CFPreferencesSynchronize => true
  | Event.IOServiceGetMatchingServices => true
  | Event.IORegistryEntryGetName _ => true
  | Event.IORegistryEntryCreateCFProperty _ => true
  | Event.IORegistryEntrySetCFProperty _ _ => true
  | _ => false

/-- The line `HandleRead` prints for the preference value. -/
def prefLine (value : Bool) : Event :=
  Event.printf "Userspace property value: %s\n" [Arg.str (if value then "on" else "off")]

/-- The row `HandleRead` prints for a service of that name and value. -/
def deviceRow (name : String) (value : Bool) : Event :=
  Event.printf "Kernel property value %s: %s\n" [Arg.str name, Arg.str (if value then "on" else "off")]

/-- Is the event a line of the preference value? -/
def Event.isPrefLine : Event → Bool
  | Event.printf fmt _ => fmt = "Userspace property value: %s\n"
  | _ => false

/-- Is the event a device row of the report? -/
def Event.isDeviceRow : Event → Bool
  | Event.printf fmt _ => fmt = "Kernel property value %s: %s\n"
  | _ => false

/-- Is the event a per-service error (lines 145, 187 and 195)? -/
def Event.isPerServiceError : Event → Bool
  | Event.ERROR line _ _ => line = 145 ∨ line = 187 ∨ line = 195
  | _ => false

/-- The preference lines of a trace, in order. -/
def prefLines (trace : List Event) : List Event := trace.filter Event.isPrefLine

/-- The device rows of a trace, in order. -/
def deviceRows (trace : List Event) : List Event := trace.filter Event.isDeviceRow

/-- The per-service errors of a trace, in order. -/
def perServiceErrors (trace : List Event) : List Event := trace.filter Event.isPerServiceError

/-- The boolean a `CFBoolean` holds (`false` for anything else). -/
def CFBooleanGetValue (boolean : CFTypeRef) : Bool :=
  match boolean with
  | some (CFValue.boolean b) => b
  | _ => false

/-- The property of the service is a `CFBoolean`. -/
def Service.isBoolean (s : Service) : Prop := ∃ b, s.DeviceEnabled = some (CFValue.boolean b)

/-- The row of a service whose name can be read and whose property is a
boolean; no row for any other service. -/
def Service.row (s : Service) : Option Event :=
  if s.nameKr = KERN_SUCCESS then
    match s.DeviceEnabled with
    | some (CFValue.boolean b) => some (deviceRow s.name b)
    | _ => none
  else none

/-- The per-service error of the read loop for a service: the error of line
145 when its name cannot be read. -/
def Service.readError (s : Service) : Option Event :=
  if s.nameKr = KERN_SUCCESS then none
  else some (Event.ERROR 145 "Failed to IORegistryEntryGetName: 0x%x" [Arg.hex s.nameKr])

/-- The per-service error of the write loop for a service: the error of line
187 when its name cannot be read, of line 195 when it refuses the write. -/
def Service.writeError (s : Service) : Option Event :=
  if s.nameKr ≠ KERN_SUCCESS then
    some (Event.ERROR 187 "Failed to IORegistryEntryGetName: 0x%x" [Arg.hex s.nameKr])
  else if s.setKr ≠ KERN_SUCCESS then
    some (Event.ERROR 195 "Failed to IORegistryEntrySetCFProperty: 0x%x" [Arg.hex s.setKr])
  else none

/-- The host a complete write pass leaves: the preference holds `enable`, and
so does every entry that was written. -/
def Host.written (enable : Bool) (h : Host) : Host :=
  { h with pref := some (CFValue.boolean enable),
           services := h.services.map (Service.written enable) }

/-! ## Sample hosts -/

/-- A service with a readable name that refuses writes and holds `p`. -/
def refusingService (name : String) (p : CFTypeRef) : Service :=
  { nameKr := 0, name := name, DeviceEnabled := p, setKr := 0x2c7 }


/-- A service that reports `value`, with a readable name, accepting writes. -/
def goodService (name : String) (value : Bool) : Service :=
  { nameKr := 0, name := name, DeviceEnabled := some (CFValue.boolean value), setKr := 0 }

/-- A host with one capable device, run as root, preference `off`, one service. -/
def hostOne : Host :=
  { VERBOSE := false, euid := 0, hidDevices := some [⟨some (CFValue.boolean true)⟩],
    pref := some (CFValue.boolean false), syncOk := true, matchKr := 0,
    services := [goodService "IR0" false] }

/-- The one-service host whose service refuses writes and publishes a
`DeviceEnabled` value that is not a boolean (type id 7, a string). -/
def hostRefusedOther : Host :=
  { hostOne with services := [refusingService "IR0" (some (CFValue.other 7))] }

/-- A host with two services: the first refuses writes and reports `off`, the
second accepts them. -/
def hostTwo : Host :=
  { hostOne with
      services := [refusingService "IR0" (some (CFValue.boolean false)), goodService "IR1" false] }

/-- A host with two services with readable names: the first publishes a
`DeviceEnabled` value that is not a boolean, the second reports `on`. -/
def hostOtherProp : Host :=
  { hostOne with
      services := [{ goodService "IR0" false with DeviceEnabled := some (CFValue.other 7) },
        goodService "IR1" true] }

/-- A host with two services: the name of the first cannot be read, the second
reports `on`. -/
def hostUnreadable : Host :=
  { hostOne with
      services := [{ goodService "IR0" false with nameKr := 0x2bc }, goodService "IR1" true] }

/-- The one-service host with a preference value that is not a boolean. -/
def hostOtherPref : Host :=
  { hostOne with pref := some (CFValue.other 7) }

/-- A host with two services with readable names: the first refuses writes and
publishes a `DeviceEnabled` value that is not a boolean, the second accepts
writes. -/
def hostStaleFirst : Host :=
  { hostOne with
      services := [refusingService "IR0" (some (CFValue.other 7)), goodService "IR1" false] }

/-- The one-service host on which `IOServiceGetMatchingServices` fails. -/
def hostNoMatch : Host :=
  { hostOne with matchKr := 0x2bc }

/-! ## Lemmas on the capability probe -/

theorem IsIRAvailable_loop_none (h : Host) (ds : List HIDDevice)
    (hds : ∀ d ∈ ds, d.HIDRemoteControl = none) (i : Nat) :
    (IsIRAvailable.loop h ds i).1 = false ∧
      ∀ e ∈ (IsIRAvailable.loop h ds i).2, e.isHandlerCall = false := by
  induction ds generalizing i with
  | nil => simp [IsIRAvailable.loop]
  | cons d rest ih =>
    have hd : d.HIDRemoteControl = none := hds d (List.mem_cons_self _ _)
    have hrest : ∀ d ∈ rest, d.HIDRemoteControl = none :=
      fun x hx => hds x (List.mem_cons_of_mem _ hx)
    obtain ⟨h1, h2⟩ := ih hrest (i + 1)
    simp only [IsIRAvailable.loop, hd, Option.isSome_none, Bool.false_eq_true, if_false]
    refine ⟨h1, ?_⟩
    intro e he
    rcases List.mem_cons.mp he with rfl | he
    · rfl
    · exact h2 e he

theorem IsIRAvailable_absent (h : Host)
    (hno : h.hidDevices = none ∨
      ∃ ds, h.hidDevices = some ds ∧ ∀ d ∈ ds, d.HIDRemoteControl = none) :
    (IsIRAvailable h).1 = false ∧ ∀ e ∈ (IsIRAvailable h).2, e.isHandlerCall = false := by
  rcases hno with hn | ⟨ds, hs, hds⟩
  · simp [IsIRAvailable, hn, Event.isHandlerCall]
  · obtain ⟨h1, h2⟩ := IsIRAvailable_loop_none h ds hds 0
    simp only [IsIRAvailable, hs]
    refine ⟨h1, ?_⟩
    intro e he
    rcases List.mem_cons.mp he with rfl | he
    · rfl
    · exact h2 e he

/-! ## Lemmas on the loops -/

theorem getElem?_append_length {α : Type} (pre : List α) (a : α) (rest : List α) :
    (pre ++ a :: rest)[pre.length]? = some a := by
  induction pre with
  | nil => simp
  | cons x xs ih => simpa using ih

theorem set_append_length {α : Type} (pre : List α) (a b : α) (rest : List α) :
    (pre ++ a :: rest).set pre.length b = pre ++ b :: rest := by
  induction pre with
  | nil => rfl
  | cons x xs ih => simp [ih]

theorem HandleRead_loop_eq_loopFrom (h : Host) (suf : List Service) :
    ∀ (pre : List Service) (d : Bool), h.services = pre ++ suf →
      HandleRead.loop h (List.range' pre.length suf.length) d =
        HandleRead.loopFrom h.VERBOSE pre.length suf d := by
  induction suf with
  | nil => intro pre d _; simp [HandleRead.loop, HandleRead.loopFrom]
  | cons s rest ih =>
    intro pre d hs
    have hget : h.services[pre.length]? = some s := by
      rw [hs]; exact getElem?_append_length pre s rest
    have ih1 := ih (pre ++ [s]) true (by simp [hs])
    simp only [List.length_append, List.length_singleton] at ih1
    simp only [List.length_cons, List.range'_succ, HandleRead.loop, HandleRead.loopFrom,
      IORegistryEntryGetName, IORegistryEntryCreateCFProperty, hget, LOG, ih1]

theorem HandleWrite_loop_eq_loopFrom (v : Bool) (suf : List Service) :
    ∀ (h : Host) (pre : List Service), h.services = pre ++ suf →
      HandleWrite.loop v h (List.range' pre.length suf.length) =
        ({ h with services := pre ++ (HandleWrite.loopFrom v h.VERBOSE pre.length suf).1 },
          (HandleWrite.loopFrom v h.VERBOSE pre.length suf).2) := by
  induction suf with
  | nil => intro h pre hs; simp [HandleWrite.loop, HandleWrite.loopFrom, ← hs]
  | cons s rest ih =>
    intro h pre hs
    have hget : h.services[pre.length]? = some s := by
      rw [hs]; exact getElem?_append_length pre s rest
    have hset : ∀ b, h.services.set pre.length b = pre ++ b :: rest := by
      intro b; rw [hs]; exact set_append_length pre s b rest
    have ih1 := ih h (pre ++ [s]) (by simp [hs])
    have ih2 := ih { h with services := pre ++ [{ s with DeviceEnabled := some (CFValue.boolean v) }] ++ rest }
      (pre ++ [{ s with DeviceEnabled := some (CFValue.boolean v) }]) rfl
    simp only [List.length_append, List.length_singleton, List.append_assoc,
      List.singleton_append] at ih1 ih2
    by_cases hn : s.nameKr = KERN_SUCCESS
    · by_cases hk : s.setKr = KERN_SUCCESS
      · simp only [hn, hk] at ih2
        simp [List.range'_succ, HandleWrite.loop, HandleWrite.loopFrom,
          IORegistryEntryGetName, IORegistryEntrySetCFProperty, hget, hset, LOG, hn, hk, ih2]
      · simp [List.range'_succ, HandleWrite.loop, HandleWrite.loopFrom,
          IORegistryEntryGetName, IORegistryEntrySetCFProperty, hget, LOG, hn, hk, ih1]
    · simp [List.range'_succ, HandleWrite.loop, HandleWrite.loopFrom,
        IORegistryEntryGetName, IORegistryEntrySetCFProperty, hget, LOG, hn, ih1]

theorem HandleWrite_loopFrom_services (v verbose : Bool) (l : List Service) :
    ∀ i, (HandleWrite.loopFrom v verbose i l).1 = l.map (Service.written v) := by
  induction l with
  | nil => intro i; rfl
  | cons s rest ih =>
    intro i
    by_cases hn : s.nameKr = KERN_SUCCESS
    · by_cases hk : s.setKr = KERN_SUCCESS
      · simp [HandleWrite.loopFrom, Service.written, hn, hk, ih]
      · simp [HandleWrite.loopFrom, Service.written, hn, hk, ih]
    · simp [HandleWrite.loopFrom, Service.written, hn, ih]

theorem HandleRead_loop_range (h : Host) (d : Bool) :
    HandleRead.loop h (List.range h.services.length) d =
      HandleRead.loopFrom h.VERBOSE 0 h.services d := by
  have := HandleRead_loop_eq_loopFrom h h.services [] d rfl
  simpa [List.range_eq_range'] using this

theorem HandleWrite_loop_range (v : Bool) (h : Host) :
    HandleWrite.loop v h (List.range h.services.length) =
      ({ h with services := h.services.map (Service.written v) },
        (HandleWrite.loopFrom v h.VERBOSE 0 h.services).2) := by
  have := HandleWrite_loop_eq_loopFrom v h.services h [] rfl
  simpa [List.range_eq_range', HandleWrite_loopFrom_services] using this

theorem HandleRead_loopFrom_good (verbose : Bool) (l : List Service) :
    ∀ (i : Nat) (d : Bool), (∀ s ∈ l, s.nameKr = KERN_SUCCESS → s.isBoolean) →
      (HandleRead.loopFrom verbose i l d).1 = Except.ok (d || !l.isEmpty) ∧
        deviceRows (HandleRead.loopFrom verbose i l d).2 = l.filterMap Service.row ∧
        perServiceErrors (HandleRead.loopFrom verbose i l d).2 = l.filterMap Service.readError := by
  induction l with
  | nil => intro i d _; simp [HandleRead.loopFrom, deviceRows, perServiceErrors]
  | cons s rest ih =>
    intro i d hb
    obtain ⟨h1, h2, h3⟩ := ih (i + 1) true (fun x hx => hb x (List.mem_cons_of_mem _ hx))
    simp only [deviceRows, perServiceErrors] at h2 h3
    by_cases hn : s.nameKr = KERN_SUCCESS
    · obtain ⟨b, hbv⟩ := hb s (List.mem_cons_self _ _) hn
      cases verbose <;>
        simp [HandleRead.loopFrom, hn, hbv, GetBooleanDescription, h1, h2, h3, deviceRows,
          perServiceErrors, Service.row, Service.readError, List.filter_cons,
          Event.isDeviceRow, Event.isPerServiceError, deviceRow]
    · simp [HandleRead.loopFrom, hn, h1, h2, h3, deviceRows,
        perServiceErrors, Service.row, Service.readError, List.filter_cons,
        Event.isDeviceRow, Event.isPerServiceError]

theorem HandleRead_loopFrom_no_prefLine (verbose : Bool) (l : List Service) :
    ∀ (i : Nat) (d : Bool), prefLines (HandleRead.loopFrom verbose i l d).2 = [] := by
  induction l with
  | nil => intro i d; simp [HandleRead.loopFrom, prefLines]
  | cons s rest ih =>
    intro i d
    have h1 := ih (i + 1) true
    simp only [prefLines] at h1
    by_cases hn : s.nameKr = KERN_SUCCESS
    · rcases hp : s.DeviceEnabled with _ | ⟨b | t⟩ <;> cases verbose <;>
        simp [HandleRead.loopFrom, hn, hp, GetBooleanDescription, h1, prefLines,
          List.filter_cons, Event.isPrefLine]
    · simp [HandleRead.loopFrom, hn, h1, prefLines, List.filter_cons, Event.isPrefLine]

theorem HandleWrite_loopFrom_trace (v verbose : Bool) (l : List Service) :
    ∀ (i : Nat), prefLines (HandleWrite.loopFrom v verbose i l).2 = [] ∧
      deviceRows (HandleWrite.loopFrom v verbose i l).2 = [] ∧
      perServiceErrors (HandleWrite.loopFrom v verbose i l).2 = l.filterMap Service.writeError := by
  induction l with
  | nil => intro i; simp [HandleWrite.loopFrom, prefLines, deviceRows, perServiceErrors]
  | cons s rest ih =>
    intro i
    obtain ⟨h1, h2, h3⟩ := ih (i + 1)
    simp only [prefLines, deviceRows, perServiceErrors] at h1 h2 h3
    by_cases hn : s.nameKr = KERN_SUCCESS
    · by_cases hk : s.setKr = KERN_SUCCESS <;> cases verbose <;>
        simp [HandleWrite.loopFrom, hn, hk, h1, h2, h3, prefLines, deviceRows, perServiceErrors,
          List.filter_cons, Event.isPrefLine, Event.isDeviceRow, Event.isPerServiceError,
          Service.writeError]
    · simp [HandleWrite.loopFrom, hn, h1, h2, h3, prefLines, deviceRows, perServiceErrors,
        List.filter_cons, Event.isPrefLine, Event.isDeviceRow, Event.isPerServiceError,
        Service.writeError]

/-! ## Lemmas on `HandleRead` and `HandleWrite` -/

theorem HandleRead_prefLines (h : Host) (p : Bool) (hp : h.pref = some (CFValue.boolean p)) :
    prefLines (HandleRead h).2 = [prefLine p] := by
  have hl := HandleRead_loopFrom_no_prefLine h.VERBOSE h.services 0 false
  simp only [prefLines] at hl
  by_cases hm : h.matchKr = KERN_SUCCESS
  · rcases hr : HandleRead.loopFrom h.VERBOSE 0 h.services false with ⟨o | d, ev⟩
    · rw [hr] at hl
      simp [Event.isPrefLine] at hl
      simpa [HandleRead, hp, GetBooleanDescription, CreateIOServiceIterator, hm,
        HandleRead_loop_range, hr, prefLines, List.filter_cons, Event.isPrefLine, prefLine] using hl
    · rw [hr] at hl
      simp [Event.isPrefLine] at hl
      cases d <;>
        simpa [HandleRead, hp, GetBooleanDescription, CreateIOServiceIterator, hm,
          HandleRead_loop_range, hr, prefLines, List.filter_cons, Event.isPrefLine, prefLine] using hl
  · simp [HandleRead, hp, GetBooleanDescription, CreateIOServiceIterator, hm, prefLines,
      List.filter_cons, Event.isPrefLine, prefLine]

theorem HandleRead_good (h : Host) (p : Bool) (hp : h.pref = some (CFValue.boolean p))
    (hm : h.matchKr = KERN_SUCCESS)
    (hb : ∀ s ∈ h.services, s.nameKr = KERN_SUCCESS → s.isBoolean) :
    (HandleRead h).1 =
        Outcome.returned (if h.services.isEmpty then EXIT_FAILURE else EXIT_SUCCESS) ∧
      deviceRows (HandleRead h).2 = h.services.filterMap Service.row ∧
      perServiceErrors (HandleRead h).2 = h.services.filterMap Service.readError := by
  obtain ⟨h1, h2, h3⟩ := HandleRead_loopFrom_good h.VERBOSE h.services 0 false hb
  simp only [deviceRows, perServiceErrors] at h2 h3
  rcases hr : HandleRead.loopFrom h.VERBOSE 0 h.services false with ⟨o | d, ev⟩
  · rw [hr] at h1; simp at h1
  · rw [hr] at h1 h2 h3
    simp only [Except.ok.injEq, Bool.false_or] at h1
    simp only at h2 h3
    subst h1
    cases he : h.services.isEmpty <;>
      simp [HandleRead, hp, GetBooleanDescription, CreateIOServiceIterator, hm,
        HandleRead_loop_range, hr, he, deviceRows, perServiceErrors, List.filter_cons,
        Event.isDeviceRow, Event.isPerServiceError, h2, h3]

theorem HandleWrite_eq (v : Bool) (h : Host) (hr : h.euid = 0) (hs : h.syncOk = true)
    (hm : h.matchKr = KERN_SUCCESS) :
    HandleWrite v h =
      ⟨(HandleRead (h.written v)).1, h.written v,
        [Event.geteuid, Event.CFPreferencesSetValue v, Event.CFPreferencesSynchronize,
          Event.IOServiceGetMatchingServices] ++
        (HandleWrite.loopFrom v h.VERBOSE 0 h.services).2 ++ (HandleRead (h.written v)).2⟩ := by
  have hl := HandleWrite_loop_range v (CFPreferencesSetValue h v)
  simp only [CFPreferencesSetValue, hr, hs, hm] at hl
  simp [HandleWrite, hr, SynchronizePrefs, CFPreferencesSetValue, hs, CreateIOServiceIterator, hm,
    hl, Host.written]

theorem HandleWrite_observe (v : Bool) (h : Host) (hr : h.euid = 0) (hs : h.syncOk = true)
    (hm : h.matchKr = KERN_SUCCESS) :
    prefLines (HandleWrite v h).trace = prefLines (HandleRead (h.written v)).2 ∧
      deviceRows (HandleWrite v h).trace = deviceRows (HandleRead (h.written v)).2 ∧
      perServiceErrors (HandleWrite v h).trace =
        h.services.filterMap Service.writeError ++
          perServiceErrors (HandleRead (h.written v)).2 := by
  obtain ⟨h1, h2, h3⟩ := HandleWrite_loopFrom_trace v h.VERBOSE h.services 0
  simp only [prefLines, deviceRows, perServiceErrors] at h1 h2 h3
  rw [HandleWrite_eq v h hr hs hm]
  simp [prefLines, deviceRows, perServiceErrors, List.filter_cons, h1, h2, h3,
    Event.isPrefLine, Event.isDeviceRow, Event.isPerServiceError]

theorem HandleWrite_no_match (v : Bool) (h : Host) (hr : h.euid = 0) (hs : h.syncOk = true)
    (hm : h.matchKr ≠ KERN_SUCCESS) :
    HandleWrite v h =
      ⟨Outcome.returned EXIT_FAILURE, CFPreferencesSetValue h v,
        [Event.geteuid, Event.CFPreferencesSetValue v, Event.CFPreferencesSynchronize,
          Event.IOServiceGetMatchingServices,
          Event.ERROR 122 "Failed to IOServiceGetMatchingServices: 0x%x" [Arg.hex h.matchKr]]⟩ := by
  simp [HandleWrite, hr, SynchronizePrefs, CFPreferencesSetValue, hs, CreateIOServiceIterator, hm]

/-! ## Lemmas on reports -/

theorem Service_written_written (v w : Bool) (s : Service) :
    Service.written v (Service.written w s) = Service.written v s := by
  by_cases hc : s.nameKr = KERN_SUCCESS ∧ s.setKr = KERN_SUCCESS
  · simp [Service.written, hc]
  · simp [Service.written, hc]

theorem Host_written_written (v w : Bool) (h : Host) :
    (h.written w).written v = h.written v := by
  simp [Host.written, Service_written_written]

theorem HandleWrite_loopFrom_written (v w verbose : Bool) (l : List Service) :
    ∀ i, (HandleWrite.loopFrom v verbose i (l.map (Service.written w))).2 =
      (HandleWrite.loopFrom v verbose i l).2 := by
  induction l with
  | nil => intro i; rfl
  | cons s rest ih =>
    intro i
    by_cases hn : s.nameKr = KERN_SUCCESS
    · by_cases hk : s.setKr = KERN_SUCCESS
      · simp [HandleWrite.loopFrom, Service.written, hn, hk, ih]
      · simp [HandleWrite.loopFrom, Service.written, hn, hk, ih]
    · simp [HandleWrite.loopFrom, Service.written, hn, ih]

theorem filterMap_row (l : List Service)
    (hb : ∀ s ∈ l, s.nameKr = KERN_SUCCESS → s.isBoolean) :
    l.filterMap Service.row =
      (l.filter (fun s => decide (s.nameKr = KERN_SUCCESS))).map
        (fun s => deviceRow s.name (CFBooleanGetValue s.DeviceEnabled)) := by
  induction l with
  | nil => rfl
  | cons s rest ih =>
    have ih1 := ih (fun x hx => hb x (List.mem_cons_of_mem _ hx))
    by_cases hn : s.nameKr = KERN_SUCCESS
    · obtain ⟨b, hbv⟩ := hb s (List.mem_cons_self _ _) hn
      simp [List.filterMap_cons, List.filter_cons, Service.row, hn, hbv, CFBooleanGetValue, ih1]
    · simp [List.filterMap_cons, List.filter_cons, Service.row, hn, ih1]

theorem filterMap_readError (l : List Service) :
    l.filterMap Service.readError =
      (l.filter (fun s => decide (s.nameKr ≠ KERN_SUCCESS))).map
        (fun s => Event.ERROR 145 "Failed to IORegistryEntryGetName: 0x%x" [Arg.hex s.nameKr]) := by
  induction l with
  | nil => rfl
  | cons s rest ih =>
    by_cases hn : s.nameKr = KERN_SUCCESS
    · simp [List.filterMap_cons, List.filter_cons, Service.readError, hn, ih]
    · simp [List.filterMap_cons, List.filter_cons, Service.readError, hn, ih]

theorem filterMap_writeError (l : List Service) (hn : ∀ s ∈ l, s.nameKr = KERN_SUCCESS) :
    l.filterMap Service.writeError =
      (l.filter (fun s => decide (s.setKr ≠ KERN_SUCCESS))).map
        (fun s => Event.ERROR 195 "Failed to IORegistryEntrySetCFProperty: 0x%x"
          [Arg.hex s.setKr]) := by
  induction l with
  | nil => rfl
  | cons s rest ih =>
    have ih1 := ih (fun x hx => hn x (List.mem_cons_of_mem _ hx))
    have hs := hn s (List.mem_cons_self _ _)
    by_cases hk : s.setKr = KERN_SUCCESS
    · simp [List.filterMap_cons, List.filter_cons, Service.writeError, hs, hk, ih1]
    · simp [List.filterMap_cons, List.filter_cons, Service.writeError, hs, hk, ih1]

theorem written_isBoolean (v : Bool) (l : List Service)
    (hstale : ∀ s ∈ l, s.nameKr = KERN_SUCCESS → s.setKr ≠ KERN_SUCCESS → s.isBoolean) :
    ∀ s ∈ l.map (Service.written v), s.nameKr = KERN_SUCCESS → s.isBoolean := by
  intro s hs hn
  obtain ⟨t, ht, rfl⟩ := List.mem_map.mp hs
  by_cases hc : t.nameKr = KERN_SUCCESS ∧ t.setKr = KERN_SUCCESS
  · exact ⟨v, by simp [Service.written, hc]⟩
  · have hn2 : t.nameKr = KERN_SUCCESS := by simpa [Service.written, hc] using hn
    have hk : t.setKr ≠ KERN_SUCCESS := fun hk => hc ⟨hn2, hk⟩
    simpa [Service.written, hc] using hstale t ht hn2 hk

theorem filterMap_row_written (v : Bool) (l : List Service)
    (hstale : ∀ s ∈ l, s.nameKr = KERN_SUCCESS → s.setKr ≠ KERN_SUCCESS → s.isBoolean) :
    (l.map (Service.written v)).filterMap Service.row =
      (l.filter (fun s => decide (s.nameKr = KERN_SUCCESS))).map
        (fun s => deviceRow s.name
          (if s.setKr = KERN_SUCCESS then v else CFBooleanGetValue s.DeviceEnabled)) := by
  induction l with
  | nil => rfl
  | cons s rest ih =>
    have ih1 := ih (fun x hx => hstale x (List.mem_cons_of_mem _ hx))
    by_cases hn : s.nameKr = KERN_SUCCESS
    · by_cases hk : s.setKr = KERN_SUCCESS
      · simp [List.filterMap_cons, List.filter_cons, Service.row, Service.written, hn, hk, ih1]
      · obtain ⟨b, hbv⟩ := hstale s (List.mem_cons_self _ _) hn hk
        simp [List.filterMap_cons, List.filter_cons, Service.row, Service.written, hn, hk, hbv,
          CFBooleanGetValue, ih1]
    · simp [List.filterMap_cons, List.filter_cons, Service.row, Service.written, hn, ih1]

theorem filter_readable_self (l : List Service) (hn : ∀ s ∈ l, s.nameKr = KERN_SUCCESS) :
    l.filter (fun s => decide (s.nameKr = KERN_SUCCESS)) = l := by
  apply List.filter_eq_self.mpr
  intro s hs
  simp [hn s hs]

theorem filterMap_readError_written (v : Bool) (l : List Service)
    (hn : ∀ s ∈ l, s.nameKr = KERN_SUCCESS) :
    (l.map (Service.written v)).filterMap Service.readError = [] := by
  induction l with
  | nil => rfl
  | cons s rest ih =>
    have ih1 := ih (fun x hx => hn x (List.mem_cons_of_mem _ hx))
    have hs := hn s (List.mem_cons_self _ _)
    by_cases hk : s.setKr = KERN_SUCCESS
    · simpa [List.filterMap_cons, Service.readError, Service.written, hs, hk] using ih1
    · simpa [List.filterMap_cons, Service.readError, Service.written, hs, hk] using ih1

/-! ## Lemmas on abnormal termination -/

theorem HandleRead_loopFrom_abort (verbose : Bool) (s : Service) (post : List Service) (t : Nat)
    (hn : s.nameKr = KERN_SUCCESS) (ht : s.DeviceEnabled = some (CFValue.other t))
    (pre : List Service) :
    ∀ (i : Nat) (d : Bool), (∀ x ∈ pre, x.nameKr = KERN_SUCCESS → x.isBoolean) →
      (HandleRead.loopFrom verbose i (pre ++ s :: post) d).1 = Except.error Outcome.aborted ∧
        deviceRows (HandleRead.loopFrom verbose i (pre ++ s :: post) d).2 =
          pre.filterMap Service.row := by
  induction pre with
  | nil =>
    intro i d _
    cases verbose <;>
      simp [HandleRead.loopFrom, hn, ht, GetBooleanDescription, deviceRows, List.filter_cons,
        Event.isDeviceRow]
  | cons x rest ih =>
    intro i d hb
    obtain ⟨h1, h2⟩ := ih (i + 1) true (fun y hy => hb y (List.mem_cons_of_mem _ hy))
    simp only [deviceRows] at h2
    by_cases hx : x.nameKr = KERN_SUCCESS
    · obtain ⟨b, hbv⟩ := hb x (List.mem_cons_self _ _) hx
      cases verbose <;>
        simp [HandleRead.loopFrom, hx, hbv, GetBooleanDescription, h1, h2, deviceRows,
          Service.row, List.filter_cons, Event.isDeviceRow, deviceRow]
    · simp [HandleRead.loopFrom, hx, h1, h2, deviceRows, Service.row, List.filter_cons,
        Event.isDeviceRow]

theorem HandleRead_abort (h : Host) (p : Bool) (hp : h.pref = some (CFValue.boolean p))
    (hm : h.matchKr = KERN_SUCCESS) (pre : List Service) (s : Service) (post : List Service)
    (t : Nat) (hl : h.services = pre ++ s :: post)
    (hb : ∀ x ∈ pre, x.nameKr = KERN_SUCCESS → x.isBoolean)
    (hn : s.nameKr = KERN_SUCCESS) (ht : s.DeviceEnabled = some (CFValue.other t)) :
    (HandleRead h).1 = Outcome.aborted ∧
      deviceRows (HandleRead h).2 = pre.filterMap Service.row := by
  obtain ⟨h1, h2⟩ := HandleRead_loopFrom_abort h.VERBOSE s post t hn ht pre 0 false hb
  rw [← hl] at h1 h2
  simp only [deviceRows] at h2
  rcases hr : HandleRead.loopFrom h.VERBOSE 0 h.services false with ⟨o | d, ev⟩
  · rw [hr] at h1 h2
    simp only [Except.error.injEq] at h1
    simp only at h2
    subst h1
    simp [HandleRead, hp, GetBooleanDescription, CreateIOServiceIterator, hm,
      HandleRead_loop_range, hr, deviceRows, List.filter_cons, Event.isDeviceRow, h2]
  · rw [hr] at h1; simp at h1

theorem HandleRead_returns (h : Host) (p : Bool) (hp : h.pref = some (CFValue.boolean p))
    (hb : ∀ s ∈ h.services, s.nameKr = KERN_SUCCESS → s.isBoolean) :
    ∃ c, (HandleRead h).1 = Outcome.returned c := by
  by_cases hm : h.matchKr = KERN_SUCCESS
  · exact ⟨_, (HandleRead_good h p hp hm hb).1⟩
  · exact ⟨EXIT_FAILURE, by
      simp [HandleRead, hp, GetBooleanDescription, CreateIOServiceIterator, hm]⟩

theorem HandleWrite_returns (v : Bool) (h : Host)
    (hb : ∀ s ∈ h.services, s.nameKr = KERN_SUCCESS → s.isBoolean) :
    ∃ c, (HandleWrite v h).outcome = Outcome.returned c := by
  by_cases hr : h.euid = 0
  · by_cases hs : h.syncOk = true
    · by_cases hm : h.matchKr = KERN_SUCCESS
      · rw [HandleWrite_eq v h hr hs hm]
        exact HandleRead_returns (h.written v) v rfl
          (written_isBoolean v h.services (fun s hsm hn _ => hb s hsm hn))
      · rw [HandleWrite_no_match v h hr hs hm]
        exact ⟨_, rfl⟩
    · exact ⟨EXIT_FAILURE, by simp [HandleWrite, hr, SynchronizePrefs, CFPreferencesSetValue, hs]⟩
  · exact ⟨EXIT_FAILURE, by simp [HandleWrite, hr]⟩

theorem HandleWrite_twice (v : Bool) (h : Host) :
    HandleWrite v (HandleWrite v h).host = HandleWrite v h := by
  by_cases hr : h.euid = 0
  · by_cases hs : h.syncOk = true
    · by_cases hm : h.matchKr = KERN_SUCCESS
      · rw [HandleWrite_eq v h hr hs hm]
        rw [HandleWrite_eq v (h.written v) hr hs hm, Host_written_written]
        simp only [Host.written]
        rw [HandleWrite_loopFrom_written]
      · rw [HandleWrite_no_match v h hr hs hm]
        rw [HandleWrite_no_match v (CFPreferencesSetValue h v) hr hs hm]
        rfl
    · simp [HandleWrite, hr, SynchronizePrefs, CFPreferencesSetValue, hs]
  · simp [HandleWrite, hr]

theorem HandleWrite_report (v : Bool) (h : Host) (hr : h.euid = 0) (hs : h.syncOk = true)
    (hm : h.matchKr = KERN_SUCCESS)
    (hstale : ∀ s ∈ h.services, s.nameKr = KERN_SUCCESS → s.setKr ≠ KERN_SUCCESS → s.isBoolean) :
    prefLines (HandleWrite v h).trace = [prefLine v] ∧
      deviceRows (HandleWrite v h).trace =
        (h.services.filter (fun s => decide (s.nameKr = KERN_SUCCESS))).map
          (fun s => deviceRow s.name
            (if s.setKr = KERN_SUCCESS then v else CFBooleanGetValue s.DeviceEnabled)) := by
  obtain ⟨o1, o2, _⟩ := HandleWrite_observe v h hr hs hm
  obtain ⟨_, g2, _⟩ := HandleRead_good (h.written v) v rfl hm
    (written_isBoolean v h.services hstale)
  refine ⟨by rw [o1, HandleRead_prefLines (h.written v) v rfl], ?_⟩
  rw [o2, g2]
  simp only [Host.written]
  rw [filterMap_row_written v h.services hstale]

/-! ## Claims -/

/-- C2: when the HID enumeration fails or no device carries the
`HIDRemoteControl` marker, `main` returns `EXIT_FAILURE` for every argument
vector, leaves the host as it was, and its trace is the probe followed by the
error of line 205: no call of `HandleRead` or `HandleWrite` (uid, preference
store, registry) occurs. -/
theorem main_capability_absent (h : Host) (argv : List String)
    (hno : h.hidDevices = none ∨
      ∃ ds, h.hidDevices = some ds ∧ ∀ d ∈ ds, d.HIDRemoteControl = none) :
    (main argv h).outcome = Outcome.returned EXIT_FAILURE ∧
      (main argv h).host = h ∧
      (main argv h).trace =
        (IsIRAvailable h).2 ++ [Event.ERROR 205 "No HIDRemoteControl available" []] ∧
      ∀ e ∈ (main argv h).trace, e.isHandlerCall = false := by
  obtain ⟨h1, h2⟩ := IsIRAvailable_absent h hno
  simp only [main, h1, Bool.not_false, if_true, true_and]
  intro e he
  rcases List.mem_append.mp he with he | he
  · exact h2 e he
  · simp only [List.mem_singleton] at he
    subst he
    rfl

/-- C2 at a host whose only HID device has no marker, invoked with `on`. -/
theorem main_capability_absent_witness :
    (main ["apple-ir-control", "on"] { hostOne with hidDevices := some [⟨none⟩] }).outcome =
        Outcome.returned EXIT_FAILURE ∧
      (main ["apple-ir-control", "on"] { hostOne with hidDevices := some [⟨none⟩] }).host =
        { hostOne with hidDevices := some [⟨none⟩] } ∧
      (main ["apple-ir-control", "on"] { hostOne with hidDevices := some [⟨none⟩] }).trace =
        (IsIRAvailable { hostOne with hidDevices := some [⟨none⟩] }).2 ++
          [Event.ERROR 205 "No HIDRemoteControl available" []] ∧
      ∀ e ∈ (main ["apple-ir-control", "on"] { hostOne with hidDevices := some [⟨none⟩] }).trace,
        e.isHandlerCall = false :=
  main_capability_absent _ _ (Or.inr ⟨[⟨none⟩], rfl, by decide⟩)

/-- C3: without effective uid 0, `HandleWrite` returns `EXIT_FAILURE` having
done nothing but read the uid and print the error of line 167: the host is
unchanged, and `HandleRead` afterwards behaves as `HandleRead` before. -/
theorem HandleWrite_not_root (h : Host) (v : Bool) (hne : h.euid ≠ 0) :
    (HandleWrite v h).outcome = Outcome.returned EXIT_FAILURE ∧
      (HandleWrite v h).host = h ∧
      (HandleWrite v h).trace =
        [Event.geteuid, Event.ERROR 167 "This operation must be performed as root" []] ∧
      HandleRead (HandleWrite v h).host = HandleRead h := by
  simp [HandleWrite, hne]

/-- C3 at a host run with effective uid 501. -/
theorem HandleWrite_not_root_witness :
    (HandleWrite true { hostOne with euid := 501 }).outcome = Outcome.returned EXIT_FAILURE ∧
      (HandleWrite true { hostOne with euid := 501 }).host = { hostOne with euid := 501 } ∧
      (HandleWrite true { hostOne with euid := 501 }).trace =
        [Event.geteuid, Event.ERROR 167 "This operation must be performed as root" []] ∧
      HandleRead (HandleWrite true { hostOne with euid := 501 }).host =
        HandleRead { hostOne with euid := 501 } :=
  HandleWrite_not_root _ true (by decide)

theorem HandleWrite_trace_root_synced (h : Host) (v : Bool) (hr : h.euid = 0)
    (hs : h.syncOk = true) :
    ∃ rest, (HandleWrite v h).trace =
      Event.geteuid :: Event.CFPreferencesSetValue v :: Event.CFPreferencesSynchronize :: rest := by
  by_cases hm : (CreateIOServiceIterator (CFPreferencesSetValue h v)).1 = true
  · simp [HandleWrite, hr, SynchronizePrefs, CFPreferencesSetValue, hs] at hm ⊢
    simp [hm]
  · simp [HandleWrite, hr, SynchronizePrefs, CFPreferencesSetValue, hs] at hm ⊢
    simp [hm]

/-- C4: in every run of `HandleWrite`, a property write is preceded in the
trace by the preference set and by a flush, and that flush succeeded; when the
flush fails (as root) the run ends with `EXIT_FAILURE` right after the error of
line 112, without enumerating services, the services being left as they were. -/
theorem HandleWrite_writes_after_flush (h : Host) (v : Bool) :
    (∀ pre post i b,
        (HandleWrite v h).trace = pre ++ Event.IORegistryEntrySetCFProperty i b :: post →
        h.syncOk = true ∧
          ∃ mid, pre = Event.geteuid :: Event.CFPreferencesSetValue v ::
            Event.CFPreferencesSynchronize :: mid) ∧
      (h.euid = 0 → h.syncOk = false →
        (HandleWrite v h).outcome = Outcome.returned EXIT_FAILURE ∧
          (HandleWrite v h).host.services = h.services ∧
          (HandleWrite v h).trace =
            [Event.geteuid, Event.CFPreferencesSetValue v, Event.CFPreferencesSynchronize,
              Event.ERROR 112 "Failed to CFPreferencesSynchronize" []]) := by
  constructor
  · intro pre post i b hdec
    have hmem : Event.IORegistryEntrySetCFProperty i b ∈ (HandleWrite v h).trace := by
      rw [hdec]; simp
    by_cases hr : h.euid = 0
    · by_cases hs : h.syncOk = true
      · refine ⟨hs, ?_⟩
        obtain ⟨rest, hrest⟩ := HandleWrite_trace_root_synced h v hr hs
        rw [hrest] at hdec
        rcases pre with _ | ⟨x, _ | ⟨y, _ | ⟨z, mid⟩⟩⟩
        · simp at hdec
        · simp at hdec
        · simp at hdec
        · simp only [List.cons_append, List.cons.injEq] at hdec
          obtain ⟨rfl, rfl, rfl, _⟩ := hdec
          exact ⟨mid, rfl⟩
      · exfalso
        simp [HandleWrite, hr, SynchronizePrefs, CFPreferencesSetValue, hs] at hmem
    · exfalso
      simp [HandleWrite, hr] at hmem
  · intro hr hs
    simp [HandleWrite, hr, SynchronizePrefs, CFPreferencesSetValue, hs]

/-- C4 at the one-service host (a write does follow the flush) and at the same
host with a failing flush. -/
theorem HandleWrite_writes_after_flush_witness :
    (hostOne.syncOk = true ∧
        ∃ mid, [Event.geteuid, Event.CFPreferencesSetValue true, Event.CFPreferencesSynchronize,
            Event.IOServiceGetMatchingServices, Event.IORegistryEntryGetName 0] =
          Event.geteuid :: Event.CFPreferencesSetValue true ::
            Event.CFPreferencesSynchronize :: mid) ∧
      ((HandleWrite true { hostOne with syncOk := false }).outcome = Outcome.returned EXIT_FAILURE ∧
        (HandleWrite true { hostOne with syncOk := false }).host.services = hostOne.services ∧
        (HandleWrite true { hostOne with syncOk := false }).trace =
          [Event.geteuid, Event.CFPreferencesSetValue true, Event.CFPreferencesSynchronize,
            Event.ERROR 112 "Failed to CFPreferencesSynchronize" []]) :=
  ⟨(HandleWrite_writes_after_flush hostOne true).1
      [Event.geteuid, Event.CFPreferencesSetValue true, Event.CFPreferencesSynchronize,
        Event.IOServiceGetMatchingServices, Event.IORegistryEntryGetName 0]
      [Event.CFPreferencesCopyValue,
        Event.printf "Userspace property value: %s\n" [Arg.str "on"],
        Event.IOServiceGetMatchingServices, Event.IORegistryEntryGetName 0,
        Event.IORegistryEntryCreateCFProperty 0,
        Event.printf "Kernel property value %s: %s\n" [Arg.str "IR0", Arg.str "on"]]
      0 true (by decide),
    (HandleWrite_writes_after_flush { hostOne with syncOk := false } true).2 rfl rfl⟩

/-- C1: run as root on a host where the flush succeeds, the enumeration
succeeds with at least one service, and every service lets its name be read and
accepts the write, `HandleWrite v` leaves the preference at `v` and the
`DeviceEnabled` property of every service at `v` (the services being otherwise
the same), and returns `EXIT_SUCCESS`. -/
theorem HandleWrite_success (h : Host) (v : Bool) (hr : h.euid = 0) (hs : h.syncOk = true)
    (hm : h.matchKr = KERN_SUCCESS) (hne : h.services ≠ [])
    (hall : ∀ s ∈ h.services, s.nameKr = KERN_SUCCESS ∧ s.setKr = KERN_SUCCESS) :
    (HandleWrite v h).host.pref = some (CFValue.boolean v) ∧
      (HandleWrite v h).host.services =
        h.services.map (fun s => { s with DeviceEnabled := some (CFValue.boolean v) }) ∧
      (∀ s ∈ (HandleWrite v h).host.services, s.DeviceEnabled = some (CFValue.boolean v)) ∧
      (HandleWrite v h).outcome = Outcome.returned EXIT_SUCCESS := by
  have hmap : h.services.map (Service.written v) =
      h.services.map (fun s => { s with DeviceEnabled := some (CFValue.boolean v) }) := by
    apply List.map_congr_left
    intro s hsm
    simp [Service.written, (hall s hsm).1, (hall s hsm).2]
  have hb : ∀ s ∈ (h.written v).services, s.nameKr = KERN_SUCCESS → s.isBoolean := by
    intro s hsm _
    simp only [Host.written, hmap, List.mem_map] at hsm
    obtain ⟨t, _, rfl⟩ := hsm
    exact ⟨v, rfl⟩
  obtain ⟨h1, _, _⟩ := HandleRead_good (h.written v) v rfl hm hb
  have hemp : (h.written v).services.isEmpty = false := by
    cases hl : h.services with
    | nil => exact absurd hl hne
    | cons a l => simp [Host.written, hl]
  rw [HandleWrite_eq v h hr hs hm]
  refine ⟨rfl, hmap, ?_, ?_⟩
  · intro s hsm
    simp only [Host.written, hmap, List.mem_map] at hsm
    obtain ⟨t, _, rfl⟩ := hsm
    rfl
  · simpa [hemp] using h1

/-- C1 at the one-service host (device `off`, invoked with `on`). -/
theorem HandleWrite_success_witness :
    (HandleWrite true hostOne).host.pref = some (CFValue.boolean true) ∧
      (HandleWrite true hostOne).host.services =
        hostOne.services.map (fun s => { s with DeviceEnabled := some (CFValue.boolean true) }) ∧
      (∀ s ∈ (HandleWrite true hostOne).host.services,
        s.DeviceEnabled = some (CFValue.boolean true)) ∧
      (HandleWrite true hostOne).outcome = Outcome.returned EXIT_SUCCESS :=
  HandleWrite_success hostOne true rfl rfl rfl (by decide) (by decide)

/-- C8: on a host with a boolean preference value, boolean service properties
and a successful enumeration, `HandleRead` returns `EXIT_FAILURE` with no
device row exactly when no service is enumerated, and returns `EXIT_SUCCESS` as
soon as one service is enumerated, whether or not its name can be read;
`HandleWrite true`, as root with a successful flush, returns `EXIT_FAILURE`
with no device row when there is no service. -/
theorem no_device_found (h : Host) (p : Bool) (hp : h.pref = some (CFValue.boolean p))
    (hb : ∀ s ∈ h.services, s.isBoolean) (hm : h.matchKr = KERN_SUCCESS) :
    (((HandleRead h).1 = Outcome.returned EXIT_FAILURE ∧ deviceRows (HandleRead h).2 = []) ↔
        h.services = []) ∧
      (h.services ≠ [] → (HandleRead h).1 = Outcome.returned EXIT_SUCCESS) ∧
      (h.euid = 0 → h.syncOk = true → h.services = [] →
        (HandleWrite true h).outcome = Outcome.returned EXIT_FAILURE ∧
          deviceRows (HandleWrite true h).trace = []) := by
  obtain ⟨h1, h2, _⟩ := HandleRead_good h p hp hm (fun s hsm _ => hb s hsm)
  refine ⟨?_, ?_, ?_⟩
  · constructor
    · rintro ⟨hf, _⟩
      cases hl : h.services with
      | nil => rfl
      | cons a l =>
        rw [h1] at hf
        simp [hl, EXIT_FAILURE, EXIT_SUCCESS] at hf
    · intro hl
      rw [h1, h2]
      simp [hl]
  · intro hne
    cases hl : h.services with
    | nil => exact absurd hl hne
    | cons a l => rw [h1]; simp [hl]
  · intro hr hs hl
    have hb2 : ∀ s ∈ (h.written true).services, s.nameKr = KERN_SUCCESS → s.isBoolean := by
      simp [Host.written, hl]
    obtain ⟨g1, g2, _⟩ := HandleRead_good (h.written true) true rfl hm hb2
    obtain ⟨_, o2, _⟩ := HandleWrite_observe true h hr hs hm
    rw [o2, g2]
    rw [HandleWrite_eq true h hr hs hm]
    simp only [g1]
    simp [Host.written, hl]

/-- C8 at the host without services (read and write fail, no row) and at the
one-service host with its name unreadable (success). -/
theorem no_device_found_witness :
    ((((HandleRead { hostOne with services := [] }).1 = Outcome.returned EXIT_FAILURE ∧
          deviceRows (HandleRead { hostOne with services := [] }).2 = []) ↔
        ({ hostOne with services := [] } : Host).services = []) ∧
      ((HandleWrite true { hostOne with services := [] }).outcome =
          Outcome.returned EXIT_FAILURE ∧
        deviceRows (HandleWrite true { hostOne with services := [] }).trace = [])) ∧
      (HandleRead { hostOne with services := [{ goodService "IR0" false with nameKr := 5 }] }).1 =
        Outcome.returned EXIT_SUCCESS :=
  ⟨⟨(no_device_found { hostOne with services := [] } false rfl (by simp) rfl).1,
      (no_device_found { hostOne with services := [] } false rfl (by simp) rfl).2.2 rfl rfl rfl⟩,
    (no_device_found { hostOne with services := [{ goodService "IR0" false with nameKr := 5 }] }
      false rfl (by simp [Service.isBoolean, goodService]) rfl).2.1 (by decide)⟩

/-- C9, as stated, fails: on a host run as root with a successful flush on
which the enumeration of the write pass fails, `HandleWrite true` returns
`EXIT_FAILURE` after the error of line 122, before the report: no
`Userspace property value` line is printed. -/
theorem HandleWrite_round_trip_counterexample :
    hostNoMatch.euid = 0 ∧ hostNoMatch.syncOk = true ∧
      (HandleWrite true hostNoMatch).outcome = Outcome.returned EXIT_FAILURE ∧
      (HandleWrite true hostNoMatch).trace =
        [Event.geteuid, Event.CFPreferencesSetValue true, Event.CFPreferencesSynchronize,
          Event.IOServiceGetMatchingServices,
          Event.ERROR 122 "Failed to IOServiceGetMatchingServices: 0x%x" [Arg.hex 0x2bc]] ∧
      prefLines (HandleWrite true hostNoMatch).trace = [] := by
  decide

/-- C9, amended: run as root with a successful flush, `HandleWrite v` leaves the
preference at `v`; when the enumeration of the write pass succeeds it prints
exactly one `Userspace property value` line, which reads `v` (`on` for true,
`off` for false); when that enumeration fails it returns `EXIT_FAILURE` and
prints no such line. -/
theorem HandleWrite_round_trip (h : Host) (v : Bool) (hr : h.euid = 0) (hs : h.syncOk = true) :
    (HandleWrite v h).host.pref = some (CFValue.boolean v) ∧
      (h.matchKr = KERN_SUCCESS → prefLines (HandleWrite v h).trace = [prefLine v]) ∧
      (h.matchKr ≠ KERN_SUCCESS →
        (HandleWrite v h).outcome = Outcome.returned EXIT_FAILURE ∧
          prefLines (HandleWrite v h).trace = []) := by
  by_cases hm : h.matchKr = KERN_SUCCESS
  · obtain ⟨o1, _, _⟩ := HandleWrite_observe v h hr hs hm
    rw [HandleRead_prefLines (h.written v) v rfl] at o1
    refine ⟨?_, fun _ => o1, fun hc => absurd hm hc⟩
    rw [HandleWrite_eq v h hr hs hm]; rfl
  · have he := HandleWrite_no_match v h hr hs hm
    have hp : prefLines (HandleWrite v h).trace = [] := by
      rw [he]; simp [prefLines, List.filter_cons, Event.isPrefLine]
    refine ⟨?_, fun hc => absurd hc hm, fun _ => ⟨?_, hp⟩⟩
    · rw [he]; rfl
    · rw [he]

/-- C9 amended, at the one-service host written `off` (the line is printed and
reads `off`) and at the host on which the enumeration fails (no line). -/
theorem HandleWrite_round_trip_witness :
    ((HandleWrite false hostOne).host.pref = some (CFValue.boolean false) ∧
        prefLines (HandleWrite false hostOne).trace = [prefLine false]) ∧
      ((HandleWrite false hostNoMatch).host.pref = some (CFValue.boolean false) ∧
        (HandleWrite false hostNoMatch).outcome = Outcome.returned EXIT_FAILURE ∧
        prefLines (HandleWrite false hostNoMatch).trace = []) :=
  ⟨⟨(HandleWrite_round_trip hostOne false rfl rfl).1,
      (HandleWrite_round_trip hostOne false rfl rfl).2.1 rfl⟩,
    ⟨(HandleWrite_round_trip hostNoMatch false rfl rfl).1,
      (HandleWrite_round_trip hostNoMatch false rfl rfl).2.2 (by decide)⟩⟩

/-- C5, as stated, fails: on a host run as root, with a successful flush and
one service with a readable name that refuses the write (k = 1), whose
`DeviceEnabled` value is not a boolean, `HandleWrite true` is terminated by
`abort()` in the final report instead of returning `EXIT_SUCCESS`, and the
report has no row for the service. -/
theorem HandleWrite_partial_counterexample :
    hostRefusedOther.euid = 0 ∧ hostRefusedOther.syncOk = true ∧
      hostRefusedOther.matchKr = KERN_SUCCESS ∧
      (∀ s ∈ hostRefusedOther.services, s.nameKr = KERN_SUCCESS) ∧
      (hostRefusedOther.services.filter (fun s => decide (s.setKr ≠ KERN_SUCCESS))).length = 1 ∧
      (HandleWrite true hostRefusedOther).outcome = Outcome.aborted ∧
      (HandleWrite true hostRefusedOther).outcome ≠ Outcome.returned EXIT_SUCCESS ∧
      deviceRows (HandleWrite true hostRefusedOther).trace = [] := by
  decide

/-- C5, amended: run as root with a successful flush and a successful
enumeration of a non-empty list of services whose names are all readable,
exactly `k` of which refuse the write, each of these holding a boolean
`DeviceEnabled` value: `HandleWrite v` returns `EXIT_SUCCESS`, its per-service
errors are the `k` errors of line 195, one per refusing service, and the report
has one row per service, in order, reading `v` for a service that accepted the
write and its prior value for a service that refused it. -/
theorem HandleWrite_partial (h : Host) (v : Bool) (k : Nat) (hr : h.euid = 0)
    (hs : h.syncOk = true) (hm : h.matchKr = KERN_SUCCESS) (hne : h.services ≠ [])
    (hn : ∀ s ∈ h.services, s.nameKr = KERN_SUCCESS)
    (hk : (h.services.filter (fun s => decide (s.setKr ≠ KERN_SUCCESS))).length = k)
    (hstale : ∀ s ∈ h.services, s.setKr ≠ KERN_SUCCESS → s.isBoolean) :
    (HandleWrite v h).outcome = Outcome.returned EXIT_SUCCESS ∧
      perServiceErrors (HandleWrite v h).trace =
        (h.services.filter (fun s => decide (s.setKr ≠ KERN_SUCCESS))).map
          (fun s => Event.ERROR 195 "Failed to IORegistryEntrySetCFProperty: 0x%x"
            [Arg.hex s.setKr]) ∧
      (perServiceErrors (HandleWrite v h).trace).length = k ∧
      deviceRows (HandleWrite v h).trace =
        h.services.map (fun s => deviceRow s.name
          (if s.setKr = KERN_SUCCESS then v else CFBooleanGetValue s.DeviceEnabled)) := by
  have hst : ∀ s ∈ h.services, s.nameKr = KERN_SUCCESS → s.setKr ≠ KERN_SUCCESS → s.isBoolean :=
    fun s hsm _ hk2 => hstale s hsm hk2
  obtain ⟨g1, g2, g3⟩ := HandleRead_good (h.written v) v rfl hm (written_isBoolean v h.services hst)
  obtain ⟨_, o2, o3⟩ := HandleWrite_observe v h hr hs hm
  have hemp : (h.written v).services.isEmpty = false := by
    cases hl : h.services with
    | nil => exact absurd hl hne
    | cons a l => simp [Host.written, hl]
  have herr : perServiceErrors (HandleWrite v h).trace =
      (h.services.filter (fun s => decide (s.setKr ≠ KERN_SUCCESS))).map
        (fun s => Event.ERROR 195 "Failed to IORegistryEntrySetCFProperty: 0x%x"
          [Arg.hex s.setKr]) := by
    rw [o3, g3, filterMap_writeError h.services hn]
    simp only [Host.written]
    rw [filterMap_readError_written v h.services hn, List.append_nil]
  refine ⟨?_, herr, ?_, ?_⟩
  · rw [HandleWrite_eq v h hr hs hm]
    simpa [hemp] using g1
  · rw [herr, List.length_map, hk]
  · rw [o2, g2]
    simp only [Host.written]
    rw [filterMap_row_written v h.services hst, filter_readable_self h.services hn]

/-- C5 amended, at the two-service host: the first service refuses the write
and keeps reporting `off`, the second accepts it. -/
theorem HandleWrite_partial_witness :
    (HandleWrite true hostTwo).outcome = Outcome.returned EXIT_SUCCESS ∧
      perServiceErrors (HandleWrite true hostTwo).trace =
        (hostTwo.services.filter (fun s => decide (s.setKr ≠ KERN_SUCCESS))).map
          (fun s => Event.ERROR 195 "Failed to IORegistryEntrySetCFProperty: 0x%x"
            [Arg.hex s.setKr]) ∧
      (perServiceErrors (HandleWrite true hostTwo).trace).length = 1 ∧
      deviceRows (HandleWrite true hostTwo).trace =
        hostTwo.services.map (fun s => deviceRow s.name
          (if s.setKr = KERN_SUCCESS then true else CFBooleanGetValue s.DeviceEnabled)) :=
  HandleWrite_partial hostTwo true 1 rfl rfl rfl (by decide) (by decide) (by decide)
    (by simp [hostTwo, hostOne, refusingService, goodService, Service.isBoolean])

/-- C6, as stated, fails for the property: on a host with a boolean preference
value and a successful enumeration of two services with readable names, the
first of which publishes a `DeviceEnabled` value that is not a boolean,
`HandleRead` is terminated by `abort()`; it logs no per-service error and the
second service is not reported. -/
theorem HandleRead_property_counterexample :
    hostOtherProp.pref = some (CFValue.boolean false) ∧
      hostOtherProp.matchKr = KERN_SUCCESS ∧
      (HandleRead hostOtherProp).1 = Outcome.aborted ∧
      perServiceErrors (HandleRead hostOtherProp).2 = [] ∧
      deviceRows (HandleRead hostOtherProp).2 = [] := by
  decide

/-- C6, amended: on a host with a boolean preference value and a successful
enumeration, a service whose name cannot be read is skipped with the error of
line 145 and the loop goes on: when every service with a readable name has a
boolean `DeviceEnabled` value, `HandleRead` returns (`EXIT_SUCCESS` unless there
is no service at all), logs one such error per service with an unreadable name
and reports one row per service with a readable name, in order.  A service with
a readable name whose `DeviceEnabled` value is not a boolean is not skipped:
the process is terminated by `abort()`, after the rows of the services before
it. -/
theorem HandleRead_skips_unreadable (h : Host) (p : Bool)
    (hp : h.pref = some (CFValue.boolean p)) (hm : h.matchKr = KERN_SUCCESS) :
    ((∀ s ∈ h.services, s.nameKr = KERN_SUCCESS → s.isBoolean) →
        (HandleRead h).1 =
            Outcome.returned (if h.services.isEmpty then EXIT_FAILURE else EXIT_SUCCESS) ∧
          perServiceErrors (HandleRead h).2 =
            (h.services.filter (fun s => decide (s.nameKr ≠ KERN_SUCCESS))).map
              (fun s => Event.ERROR 145 "Failed to IORegistryEntryGetName: 0x%x"
                [Arg.hex s.nameKr]) ∧
          deviceRows (HandleRead h).2 =
            (h.services.filter (fun s => decide (s.nameKr = KERN_SUCCESS))).map
              (fun s => deviceRow s.name (CFBooleanGetValue s.DeviceEnabled))) ∧
      (∀ (pre : List Service) (s : Service) (post : List Service) (t : Nat),
        h.services = pre ++ s :: post →
        (∀ x ∈ pre, x.nameKr = KERN_SUCCESS → x.isBoolean) →
        s.nameKr = KERN_SUCCESS → s.DeviceEnabled = some (CFValue.other t) →
        (HandleRead h).1 = Outcome.aborted ∧
          deviceRows (HandleRead h).2 =
            (pre.filter (fun s => decide (s.nameKr = KERN_SUCCESS))).map
              (fun s => deviceRow s.name (CFBooleanGetValue s.DeviceEnabled))) := by
  constructor
  · intro hb
    obtain ⟨h1, h2, h3⟩ := HandleRead_good h p hp hm hb
    exact ⟨h1, by rw [h3, filterMap_readError], by rw [h2, filterMap_row h.services hb]⟩
  · intro pre s post t hl hb hn ht
    obtain ⟨h1, h2⟩ := HandleRead_abort h p hp hm pre s post t hl hb hn ht
    exact ⟨h1, by rw [h2, filterMap_row pre hb]⟩

/-- C6 amended, at the host whose first service has an unreadable name (one
error, the second service reported) and at the host whose first service
publishes a non-boolean value (abort). -/
theorem HandleRead_skips_unreadable_witness :
    ((HandleRead hostUnreadable).1 =
          Outcome.returned (if hostUnreadable.services.isEmpty then EXIT_FAILURE else EXIT_SUCCESS) ∧
        perServiceErrors (HandleRead hostUnreadable).2 =
          (hostUnreadable.services.filter (fun s => decide (s.nameKr ≠ KERN_SUCCESS))).map
            (fun s => Event.ERROR 145 "Failed to IORegistryEntryGetName: 0x%x"
              [Arg.hex s.nameKr]) ∧
        deviceRows (HandleRead hostUnreadable).2 =
          (hostUnreadable.services.filter (fun s => decide (s.nameKr = KERN_SUCCESS))).map
            (fun s => deviceRow s.name (CFBooleanGetValue s.DeviceEnabled))) ∧
      ((HandleRead hostOtherProp).1 = Outcome.aborted ∧
        deviceRows (HandleRead hostOtherProp).2 =
          (([] : List Service).filter (fun s => decide (s.nameKr = KERN_SUCCESS))).map
            (fun s => deviceRow s.name (CFBooleanGetValue s.DeviceEnabled))) :=
  ⟨(HandleRead_skips_unreadable hostUnreadable false rfl rfl).1
      (by simp [hostUnreadable, hostOne, goodService, Service.isBoolean]),
    (HandleRead_skips_unreadable hostOtherProp false rfl rfl).2 []
      { goodService "IR0" false with DeviceEnabled := some (CFValue.other 7) }
      [goodService "IR1" true] 7 rfl (by simp) rfl rfl⟩

/-- C7, as stated, fails: on a host with capable hardware whose stored
preference value is not a boolean, `main` without argument does not return
exit code 1: the value reaches `GetBooleanDescription` and the process is
terminated by `abort()` after the error of line 102. -/
theorem main_abort_counterexample :
    (IsIRAvailable hostOtherPref).1 = true ∧
      (main ["apple-ir-control"] hostOtherPref).outcome = Outcome.aborted ∧
      (main ["apple-ir-control"] hostOtherPref).outcome ≠ Outcome.returned EXIT_FAILURE ∧
      (main ["apple-ir-control"] hostOtherPref).trace =
        [Event.IOHIDManagerCopyDevices, Event.IOHIDDeviceGetProperty 0,
          Event.CFPreferencesCopyValue,
          Event.ERROR 102 "Unexpected non-boolean CFTypeRef" []] := by
  decide

/-- C7, amended: on a host with capable hardware nothing checks the type before
`GetBooleanDescription`.  When the stored preference value is an object that is
not a boolean, the read transaction (`main` without argument) passes it to the
formatter and is terminated by `abort()` right after the error of line 102.
The abort branch is out of reach of `main`, which then returns an exit code for
every argument vector, when the preference value is a boolean and every service
with a readable name has a boolean `DeviceEnabled` value. -/
theorem main_abort_reachable (h : Host) (ha : (IsIRAvailable h).1 = true) :
    (∀ (argv : List String) (t : Nat), argv.length = 1 → h.pref = some (CFValue.other t) →
        (main argv h).outcome = Outcome.aborted ∧
          (main argv h).trace =
            (IsIRAvailable h).2 ++
              [Event.CFPreferencesCopyValue,
                Event.ERROR 102 "Unexpected non-boolean CFTypeRef" []]) ∧
      (∀ (argv : List String) (p : Bool), h.pref = some (CFValue.boolean p) →
        (∀ s ∈ h.services, s.nameKr = KERN_SUCCESS → s.isBoolean) →
        ∃ c, (main argv h).outcome = Outcome.returned c) := by
  constructor
  · intro argv t hlen hp
    simp [main, ha, hlen, HandleRead, hp, GetBooleanDescription]
  · intro argv p hp hb
    by_cases h1 : argv.length = 1
    · obtain ⟨c, hc⟩ := HandleRead_returns h p hp hb
      exact ⟨c, by simp [main, ha, h1, hc]⟩
    · by_cases h2 : argv.length = 2 ∧ argv[1]? = some "on"
      · obtain ⟨c, hc⟩ := HandleWrite_returns true h hb
        exact ⟨c, by simp only [main, ha, h1, h2]; simpa using hc⟩
      · by_cases h3 : argv.length = 2 ∧ argv[1]? = some "off"
        · obtain ⟨c, hc⟩ := HandleWrite_returns false h hb
          exact ⟨c, by simp only [main, ha, h1, h2, h3]; simpa using hc⟩
        · exact ⟨EXIT_FAILURE, by simp only [main, ha, h1, h2, h3]; simp⟩

/-- C7 amended, at the host with a non-boolean preference value (read) and at
the one-service host (write `on`). -/
theorem main_abort_reachable_witness :
    ((main ["apple-ir-control"] hostOtherPref).outcome = Outcome.aborted ∧
        (main ["apple-ir-control"] hostOtherPref).trace =
          (IsIRAvailable hostOtherPref).2 ++
            [Event.CFPreferencesCopyValue,
              Event.ERROR 102 "Unexpected non-boolean CFTypeRef" []]) ∧
      ∃ c, (main ["apple-ir-control", "on"] hostOne).outcome = Outcome.returned c :=
  ⟨(main_abort_reachable hostOtherPref (by decide)).1 ["apple-ir-control"] 7 rfl rfl,
    (main_abort_reachable hostOne (by decide)).2 ["apple-ir-control", "on"] false rfl
      (by simp [hostOne, goodService, Service.isBoolean])⟩

/-- C10, as stated, fails in its second half: on a host run as root, with a
successful flush and enumeration, whose first service refuses writes and
publishes a `DeviceEnabled` value that is not a boolean and whose second service
accepts writes, `HandleWrite false` after `HandleWrite true` does set the second
service to `false` but is terminated by `abort()` before reporting it: the
report has the preference line and no device row. -/
theorem HandleWrite_flip_counterexample :
    hostStaleFirst.euid = 0 ∧ hostStaleFirst.syncOk = true ∧
      hostStaleFirst.matchKr = KERN_SUCCESS ∧
      (HandleWrite false (HandleWrite true hostStaleFirst).host).outcome = Outcome.aborted ∧
      (HandleWrite false (HandleWrite true hostStaleFirst).host).host.services =
        [refusingService "IR0" (some (CFValue.other 7)), goodService "IR1" false] ∧
      prefLines (HandleWrite false (HandleWrite true hostStaleFirst).host).trace =
        [prefLine false] ∧
      deviceRows (HandleWrite false (HandleWrite true hostStaleFirst).host).trace = [] := by
  decide

/-- C10, amended: run as root, `HandleWrite true` a second time yields the same
outcome, the same trace (so the same report) and the same host as the first
time.  When moreover every service with a readable name that refuses the write
has a boolean `DeviceEnabled` value: if the flush and the enumeration succeed,
`HandleWrite true` reports the preference as `on` and one row per service with a
readable name, reading `on` for every service that accepts the write, and
`HandleWrite false` run after it reports the preference as `off` and the same
rows reading `off` for every service that accepts the write (a service that
refuses it keeps its value in both reports); if the flush or the enumeration
fails, `HandleWrite false` run after `HandleWrite true` returns `EXIT_FAILURE`
and reports nothing. -/
theorem HandleWrite_idempotent (h : Host) (hr : h.euid = 0) :
    HandleWrite true (HandleWrite true h).host = HandleWrite true h ∧
      ((∀ s ∈ h.services, s.nameKr = KERN_SUCCESS → s.setKr ≠ KERN_SUCCESS → s.isBoolean) →
        (h.syncOk = true → h.matchKr = KERN_SUCCESS →
          prefLines (HandleWrite true h).trace = [prefLine true] ∧
            deviceRows (HandleWrite true h).trace =
              (h.services.filter (fun s => decide (s.nameKr = KERN_SUCCESS))).map
                (fun s => deviceRow s.name
                  (if s.setKr = KERN_SUCCESS then true else CFBooleanGetValue s.DeviceEnabled)) ∧
            prefLines (HandleWrite false (HandleWrite true h).host).trace = [prefLine false] ∧
            deviceRows (HandleWrite false (HandleWrite true h).host).trace =
              (h.services.filter (fun s => decide (s.nameKr = KERN_SUCCESS))).map
                (fun s => deviceRow s.name
                  (if s.setKr = KERN_SUCCESS then false
                    else CFBooleanGetValue s.DeviceEnabled))) ∧
          (¬ (h.syncOk = true ∧ h.matchKr = KERN_SUCCESS) →
            (HandleWrite false (HandleWrite true h).host).outcome =
                Outcome.returned EXIT_FAILURE ∧
              prefLines (HandleWrite false (HandleWrite true h).host).trace = [] ∧
              deviceRows (HandleWrite false (HandleWrite true h).host).trace = [])) := by
  refine ⟨HandleWrite_twice true h, ?_⟩
  intro hstale
  constructor
  · intro hs hm
    obtain ⟨a1, a2⟩ := HandleWrite_report true h hr hs hm hstale
    obtain ⟨o1, o2, _⟩ := HandleWrite_observe false (h.written true) hr hs hm
    rw [Host_written_written] at o1 o2
    obtain ⟨_, g2, _⟩ := HandleRead_good (h.written false) false rfl hm
      (written_isBoolean false h.services hstale)
    have hhost : (HandleWrite true h).host = h.written true := by
      rw [HandleWrite_eq true h hr hs hm]
    refine ⟨a1, a2, ?_, ?_⟩
    · rw [hhost, o1, HandleRead_prefLines (h.written false) false rfl]
    · rw [hhost, o2, g2]
      simp only [Host.written]
      rw [filterMap_row_written false h.services hstale]
  · intro hfail
    by_cases hs : h.syncOk = true
    · have hm : h.matchKr ≠ KERN_SUCCESS := fun hm => hfail ⟨hs, hm⟩
      rw [HandleWrite_no_match true h hr hs hm]
      rw [HandleWrite_no_match false (CFPreferencesSetValue h true) hr hs hm]
      simp [prefLines, deviceRows, List.filter_cons, Event.isPrefLine, Event.isDeviceRow]
    · simp [HandleWrite, hr, SynchronizePrefs, CFPreferencesSetValue, hs, prefLines,
        deviceRows, List.filter_cons, Event.isPrefLine, Event.isDeviceRow]

/-- C10 amended, at the two-service host whose first service refuses writes and
reports `off`, and at the one-service host with a failing flush. -/
theorem HandleWrite_idempotent_witness :
    HandleWrite true (HandleWrite true hostTwo).host = HandleWrite true hostTwo ∧
      (prefLines (HandleWrite true hostTwo).trace = [prefLine true] ∧
        deviceRows (HandleWrite true hostTwo).trace =
          (hostTwo.services.filter (fun s => decide (s.nameKr = KERN_SUCCESS))).map
            (fun s => deviceRow s.name
              (if s.setKr = KERN_SUCCESS then true else CFBooleanGetValue s.DeviceEnabled)) ∧
        prefLines (HandleWrite false (HandleWrite true hostTwo).host).trace = [prefLine false] ∧
        deviceRows (HandleWrite false (HandleWrite true hostTwo).host).trace =
          (hostTwo.services.filter (fun s => decide (s.nameKr = KERN_SUCCESS))).map
            (fun s => deviceRow s.name
              (if s.setKr = KERN_SUCCESS then false else CFBooleanGetValue s.DeviceEnabled))) ∧
      ((HandleWrite false (HandleWrite true { hostOne with syncOk := false }).host).outcome =
          Outcome.returned EXIT_FAILURE ∧
        prefLines
          (HandleWrite false (HandleWrite true { hostOne with syncOk := false }).host).trace = [] ∧
        deviceRows
          (HandleWrite false (HandleWrite true { hostOne with syncOk := false }).host).trace = []) :=
  ⟨(HandleWrite_idempotent hostTwo rfl).1,
    ((HandleWrite_idempotent hostTwo rfl).2
      (by simp [hostTwo, hostOne, refusingService, goodService, Service.isBoolean])).1 rfl rfl,
    ((HandleWrite_idempotent { hostOne with syncOk := false } rfl).2
      (by simp [hostOne, goodService, Service.isBoolean])).2 (by decide)⟩

end AppleIR
